import Mathlib

/-!
Verification of the business-analyzer repository.

Part 1 models the frontend chart components of
`src/unnamed/part_000` (the React chart components file): every chart
component first checks that its input list has at least two data items
and otherwise renders the `EmptyChart` placeholder.  The render result is
modelled as a closed inductive: either the placeholder (with its label)
or a concrete chart payload.

Part 2 models `applyFilters` of
`src/frontend/src/pages/DashboardPage.jsx`, the cross-filter helper.

Part 3 models the planning pipeline (profiler, quality scorer, role
assigner, candidate generator, chart selector, manifest builder).  The
scripts implementing it (`parse_data.py`, `plan_charts.py`,
`compute_metrics.py`, `chart_runner.py`) are not present under `src/`
(only `SKILL.md` documents them), so those definitions are modelled from
the spec, as flagged in their doc comments.
-/

/-- Result of rendering a chart component: the `EmptyChart` placeholder
(with its label) or a concrete chart payload. -/
inductive RenderedChart where
  | empty (label : String)
  | line (labels : List String) (values : List Int)
  | hbar (labels : List String) (values : List Int)
  | donut (labels : List String) (values : List Int)
deriving DecidableEq, Repr

/-- A point of the revenue trend series (fields read by `TrendChart`). -/
structure TrendPoint where
  period : String
  revenue : Int
deriving DecidableEq, Repr

/-- A row of the top-products series (fields read by `ProductsChart`). -/
structure ProductRow where
  product : String
  revenue : Int
deriving DecidableEq, Repr

/-- A slice of the product-mix series (fields read by `ProductMixChart`). -/
structure SharePoint where
  name : String
  value : Int
deriving DecidableEq, Repr

/-- A row of the by-region series (fields read by `RegionChart`). -/
structure RegionRow where
  region : String
  revenue : Int
deriving DecidableEq, Repr

/-- A row of the by-category series (fields read by `CategoryChart`). -/
structure CategoryRow where
  category : String
  revenue : Int
deriving DecidableEq, Repr

/-- A row of the by-rep series (fields read by `RepChart`). -/
structure RepRow where
  rep : String
  revenue : Int
deriving DecidableEq, Repr

/-- A row of the quantities series (fields read by `QuantityChart`). -/
structure QuantityRow where
  product : String
  quantity : Int
deriving DecidableEq, Repr

/-- Stable insertion step for descending sort by an integer key, matching
the JS `[...xs].sort((a, b) => b.key - a.key)` calls in the chart file. -/
def insertDescBy (key : α → Int) (x : α) : List α → List α
  | [] => [x]
  | y :: ys => if key y ≤ key x then x :: y :: ys else y :: insertDescBy key x ys

/-- Stable descending sort by an integer key. -/
def sortDescBy (key : α → Int) : List α → List α
  | [] => []
  | x :: xs => insertDescBy key x (sortDescBy key xs)

/-- `HBarChart` from `src/unnamed/part_000`: the shared horizontal-bar
renderer.  It has no empty-state branch of its own; callers guard. -/
def HBarChart (labels : List String) (values : List Int) : RenderedChart :=
  .hbar labels values

/-- `TrendChart` from `src/unnamed/part_000`: renders the placeholder when
`trend.length < 2`, otherwise a line chart of periods and revenues. -/
def TrendChart (trend : List TrendPoint) : RenderedChart :=
  if trend.length < 2 then .empty "Données de tendance insuffisantes"
  else .line (trend.map (·.period)) (trend.map (·.revenue))

/-- `ProductsChart` from `src/unnamed/part_000`: keeps the first 8
products (`products.slice(0, 8)`), renders the placeholder when fewer
than 2 remain, otherwise a horizontal bar chart. -/
def ProductsChart (products : List ProductRow) : RenderedChart :=
  let items := products.take 8
  if items.length < 2 then .empty "Données produits insuffisantes"
  else HBarChart (items.map (·.product)) (items.map (·.revenue))

/-- `ProductMixChart` from `src/unnamed/part_000`: renders the placeholder
when `share.length < 2`, otherwise a doughnut of all slices. -/
def ProductMixChart (share : List SharePoint) : RenderedChart :=
  if share.length < 2 then .empty "Données de répartition insuffisantes"
  else .donut (share.map (·.name)) (share.map (·.value))

/-- `RegionChart` from `src/unnamed/part_000`: renders the placeholder
when `regions.length < 2`, otherwise sorts descending by revenue and
renders a horizontal bar chart. -/
def RegionChart (regions : List RegionRow) : RenderedChart :=
  if regions.length < 2 then .empty "Pas de données régionales"
  else
    let sorted := sortDescBy (·.revenue) regions
    HBarChart (sorted.map (·.region)) (sorted.map (·.revenue))

/-- `CategoryChart` from `src/unnamed/part_000`: same shape as
`RegionChart` over categories. -/
def CategoryChart (categories : List CategoryRow) : RenderedChart :=
  if categories.length < 2 then .empty "Pas de données de catégories"
  else
    let sorted := sortDescBy (·.revenue) categories
    HBarChart (sorted.map (·.category)) (sorted.map (·.revenue))

/-- `RepChart` from `src/unnamed/part_000`: same shape as `RegionChart`
over sales reps. -/
def RepChart (reps : List RepRow) : RenderedChart :=
  if reps.length < 2 then .empty "Pas de données par commercial"
  else
    let sorted := sortDescBy (·.revenue) reps
    HBarChart (sorted.map (·.rep)) (sorted.map (·.revenue))

/-- `QuantityChart` from `src/unnamed/part_000`: renders the placeholder
when `quantities.length < 2`, otherwise sorts descending by quantity,
keeps the first 8 and renders a horizontal bar chart. -/
def QuantityChart (quantities : List QuantityRow) : RenderedChart :=
  if quantities.length < 2 then .empty "Pas de données de quantité"
  else
    let sorted := (sortDescBy (·.quantity) quantities).take 8
    HBarChart (sorted.map (·.product)) (sorted.map (·.quantity))

/-- C9: every chart component at the frontend's public interface renders
the `EmptyChart` placeholder instead of a chart whenever its input list
has fewer than 2 data items: `TrendChart` with `trend.length < 2`,
`ProductsChart` with fewer than 2 products, `ProductMixChart` with
`share.length < 2`, `RegionChart` with `regions.length < 2`, and likewise
`CategoryChart`, `RepChart` and `QuantityChart`. -/
theorem charts_render_empty_below_two :
    (∀ t : List TrendPoint, t.length < 2 →
      TrendChart t = .empty "Données de tendance insuffisantes") ∧
    (∀ p : List ProductRow, p.length < 2 →
      ProductsChart p = .empty "Données produits insuffisantes") ∧
    (∀ s : List SharePoint, s.length < 2 →
      ProductMixChart s = .empty "Données de répartition insuffisantes") ∧
    (∀ r : List RegionRow, r.length < 2 →
      RegionChart r = .empty "Pas de données régionales") ∧
    (∀ c : List CategoryRow, c.length < 2 →
      CategoryChart c = .empty "Pas de données de catégories") ∧
    (∀ r : List RepRow, r.length < 2 →
      RepChart r = .empty "Pas de données par commercial") ∧
    (∀ q : List QuantityRow, q.length < 2 →
      QuantityChart q = .empty "Pas de données de quantité") := by
  refine ⟨?_, ?_, ?_, ?_, ?_, ?_, ?_⟩
  · intro t h
    simp [TrendChart, h]
  · intro p h
    have h2 : (p.take 8).length < 2 := by
      simpa [List.length_take] using Nat.lt_of_le_of_lt (Nat.min_le_right 8 p.length) h
    simp only [ProductsChart]
    rw [if_pos h2]
  · intro s h
    simp [ProductMixChart, h]
  · intro r h
    simp [RegionChart, h]
  · intro c h
    simp [CategoryChart, h]
  · intro r h
    simp [RepChart, h]
  · intro q h
    simp [QuantityChart, h]

/-- Witness for C9: each component evaluated at a concrete list of fewer
than 2 items yields the placeholder. -/
theorem charts_render_empty_below_two_witness :
    TrendChart [] = .empty "Données de tendance insuffisantes" ∧
    ProductsChart [⟨"A", 5⟩] = .empty "Données produits insuffisantes" ∧
    ProductMixChart [⟨"A", 40⟩] = .empty "Données de répartition insuffisantes" ∧
    RegionChart [] = .empty "Pas de données régionales" ∧
    CategoryChart [⟨"Food", 9⟩] = .empty "Pas de données de catégories" ∧
    RepChart [] = .empty "Pas de données par commercial" ∧
    QuantityChart [⟨"A", 3⟩] = .empty "Pas de données de quantité" :=
  ⟨charts_render_empty_below_two.1 [] (by decide),
   charts_render_empty_below_two.2.1 [⟨"A", 5⟩] (by decide),
   charts_render_empty_below_two.2.2.1 [⟨"A", 40⟩] (by decide),
   charts_render_empty_below_two.2.2.2.1 [] (by decide),
   charts_render_empty_below_two.2.2.2.2.1 [⟨"Food", 9⟩] (by decide),
   charts_render_empty_below_two.2.2.2.2.2.1 [] (by decide),
   charts_render_empty_below_two.2.2.2.2.2.2 [⟨"A", 3⟩] (by decide)⟩

/-- A raw sales row as read by the cross-filter helper of
`src/frontend/src/pages/DashboardPage.jsx` (only the fields `applyFilters`
reads: `region`, `category`, `sales_rep`). -/
structure SalesRow where
  region : String
  category : String
  sales_rep : String
deriving DecidableEq, Repr

/-- The dashboard cross-filter state: each of the three dimensions is
either a selected label or null (`none`). -/
structure FilterState where
  region : Option String
  category : Option String
  rep : Option String
deriving DecidableEq, Repr

/-- The dimension excluded from filtering (the JS `exclude` argument is
one of the strings `"region"`, `"category"`, `"rep"`, or null). -/
inductive FilterKey where
  | region
  | category
  | rep
deriving DecidableEq, Repr

/-- JS truthiness of a string-or-null filter value: null and the empty
string are falsy, every other string is truthy. -/
def truthy : Option String → Bool
  | none => false
  | some s => s != ""

/-- One guard of the `applyFilters` callback, mirroring
`exclude !== "region" && region && r.region !== region`: the row is
dropped when the dimension is not excluded, the filter value is truthy,
and the row value differs from it. -/
def filterBlocks (excluded : Bool) (fv : Option String) (rv : String) : Bool :=
  !excluded && truthy fv && (some rv != fv)

/-- The row predicate of `applyFilters` from
`src/frontend/src/pages/DashboardPage.jsx` lines 36-43: three early
returns, one per dimension, else keep. -/
def keepRow (f : FilterState) (ex : Option FilterKey) (r : SalesRow) : Bool :=
  if filterBlocks (ex == some FilterKey.region) f.region r.region then false
  else if filterBlocks (ex == some FilterKey.category) f.category r.category then false
  else if filterBlocks (ex == some FilterKey.rep) f.rep r.sales_rep then false
  else true

/-- `applyFilters` from `src/frontend/src/pages/DashboardPage.jsx`:
filters the rows by the three cross-filter dimensions, skipping the
excluded one. -/
def applyFilters (rows : List SalesRow) (f : FilterState) (ex : Option FilterKey) :
    List SalesRow :=
  rows.filter (keepRow f ex)

/-- Claim-side predicate for C10, following the claim's words: a row
matches when it satisfies every non-null filter other than the excluded
dimension (a `some` filter value always applies, even the empty
string). -/
def matchReqNonNull (excluded : Bool) (fv : Option String) (rv : String) : Bool :=
  match fv with
  | none => true
  | some s => excluded || rv == s

/-- Claim-side row predicate for C10 over the three dimensions. -/
def matchesNonNullFilters (f : FilterState) (ex : Option FilterKey) (r : SalesRow) : Bool :=
  matchReqNonNull (ex == some FilterKey.region) f.region r.region &&
  matchReqNonNull (ex == some FilterKey.category) f.category r.category &&
  matchReqNonNull (ex == some FilterKey.rep) f.rep r.sales_rep

/-- Amended row predicate: a row matches when it satisfies every truthy
(non-null and non-empty) filter other than the excluded dimension. -/
def matchReqActive (excluded : Bool) (fv : Option String) (rv : String) : Bool :=
  match fv with
  | none => true
  | some s => s == "" || excluded || rv == s

/-- Amended row predicate for C10 over the three dimensions. -/
def matchesActiveFilters (f : FilterState) (ex : Option FilterKey) (r : SalesRow) : Bool :=
  matchReqActive (ex == some FilterKey.region) f.region r.region &&
  matchReqActive (ex == some FilterKey.category) f.category r.category &&
  matchReqActive (ex == some FilterKey.rep) f.rep r.sales_rep

theorem not_filterBlocks (exb : Bool) (fv : Option String) (rv : String) :
    (!filterBlocks exb fv rv) = matchReqActive exb fv rv := by
  rcases fv with _ | s
  · cases exb <;> rfl
  · show (!(!exb && (s != "") && (some rv != some s))) = (s == "" || exb || rv == s)
    have hsome : (some rv != some s) = (rv != s) := by
      show (!(some rv == some s)) = !(rv == s)
      rfl
    rw [hsome]
    show (!(!exb && !(s == "") && !(rv == s))) = (s == "" || exb || rv == s)
    cases exb <;> cases hs : s == "" <;> cases hr : rv == s <;> rfl

theorem keepRow_eq_matchesActive (f : FilterState) (ex : Option FilterKey) (r : SalesRow) :
    keepRow f ex r = matchesActiveFilters f ex r := by
  simp only [keepRow, matchesActiveFilters, ← not_filterBlocks]
  cases h1 : filterBlocks (ex == some FilterKey.region) f.region r.region <;>
    cases h2 : filterBlocks (ex == some FilterKey.category) f.category r.category <;>
    cases h3 : filterBlocks (ex == some FilterKey.rep) f.rep r.sales_rep <;>
    simp [h1, h2, h3]

/-- Counterexample for C10 as stated: with the non-null but falsy filter
`region = some ""`, the code keeps a row whose region is "North" (JS
truthiness short-circuits the check), while the claim's predicate, which
applies every non-null filter, would drop it. -/
theorem applyFilters_nonnull_counterexample :
    applyFilters [⟨"North", "Food", "Ana"⟩] ⟨some "", none, none⟩ none ≠
      List.filter (matchesNonNullFilters ⟨some "", none, none⟩ none)
        [⟨"North", "Food", "Ana"⟩] := by
  decide

/-- C10 (amended): for every row list and filter state, `applyFilters`
returns exactly the subsequence of rows (original order preserved, via
`List.filter`) matching every truthy (non-null and non-empty) filter
other than the excluded dimension; in particular, when region, category,
and rep are all null, `applyFilters` is the identity. -/
theorem applyFilters_eq_filter_active :
    (∀ (rows : List SalesRow) (f : FilterState) (ex : Option FilterKey),
      applyFilters rows f ex = rows.filter (matchesActiveFilters f ex)) ∧
    (∀ (rows : List SalesRow) (ex : Option FilterKey),
      applyFilters rows ⟨none, none, none⟩ ex = rows) := by
  have hmain : ∀ (rows : List SalesRow) (f : FilterState) (ex : Option FilterKey),
      applyFilters rows f ex = rows.filter (matchesActiveFilters f ex) := by
    intro rows f ex
    exact List.filter_congr fun r _ => keepRow_eq_matchesActive f ex r
  refine ⟨hmain, ?_⟩
  intro rows ex
  have hkeep : ∀ r : SalesRow, keepRow ⟨none, none, none⟩ ex r = true := by
    intro r
    cases hx : (ex == some FilterKey.region) <;>
      simp [keepRow, filterBlocks, truthy]
  simp only [applyFilters]
  exact List.filter_eq_self.mpr fun r _ => hkeep r

/-- Semantic column types assigned by the Column Profiler (spec section 3). -/
inductive InferredType where
  | date
  | numeric
  | categorical
  | boolean
  | id
  | text
deriving DecidableEq, Repr

/-- A raw input column: its name, raw storage dtype, and values with
nulls (`none`). -/
structure RawColumn where
  name : String
  dtype : String
  values : List (Option String)
deriving DecidableEq, Repr

/-- The non-null values of a raw column. -/
def nonNullValues (col : RawColumn) : List String :=
  col.values.filterMap (fun v => v)

/-- Modelled from the spec: `parse_data.py` (the Column Profiler) is not
under `src/`; this is the classification order of spec section 4.1,
first matching rule wins, evaluated per column independently:
boolean (exactly 2 distinct non-null values), then date (at least 50% of
non-null values parse as dates), then numeric (native numeric dtype or at
least 50% of values clean to floats), then id (distinct-value ratio
above 0.70), then text (average string length above 60), else
categorical.  A column with zero non-null values yields categorical.
The permissive date parser, the native-numeric dtype test and the
currency-stripping float test are external details, taken as parameters. -/
def inferColumnType (dateParses : String → Bool) (numericDtype : String → Bool)
    (cleansToFloat : String → Bool) (col : RawColumn) : InferredType :=
  let nn := nonNullValues col
  if nn.isEmpty then .categorical
  else if nn.dedup.length = 2 then .boolean
  else if nn.length ≤ 2 * (nn.filter dateParses).length then .date
  else if numericDtype col.dtype || nn.length ≤ 2 * (nn.filter cleansToFloat).length then .numeric
  else if 7 * nn.length < 10 * nn.dedup.length then .id
  else if 60 * nn.length < (nn.map String.length).sum then .text
  else .categorical

/-- C5: for every input column whose non-null values have exactly 2
distinct values, the Column Profiler returns `inferred_type = boolean`
regardless of the column's name, raw dtype, or how the date/numeric/float
predicates would classify it — the boolean rule is first in the
first-match-wins order (before date, numeric, id, text, categorical). -/
theorem profiler_two_distinct_is_boolean :
    ∀ (dateParses numericDtype cleansToFloat : String → Bool) (col : RawColumn),
      (nonNullValues col).dedup.length = 2 →
      inferColumnType dateParses numericDtype cleansToFloat col = .boolean := by
  intro dp nd cf col h
  have hne : ¬((nonNullValues col).isEmpty = true) := by
    intro hE
    rw [List.isEmpty_iff] at hE
    rw [hE] at h
    simp at h
  simp only [inferColumnType]
  rw [if_neg hne, if_pos h]

/-- Witness for C5: a concrete column with two distinct non-null values
("yes"/"no"), a numeric-looking dtype, and predicates that would accept
every value as a date or float, still classifies as boolean. -/
theorem profiler_two_distinct_is_boolean_witness :
    inferColumnType (fun _ => true) (fun _ => true) (fun _ => true)
      ⟨"flag", "int64", [some "yes", some "no", none, some "yes"]⟩ = .boolean :=
  profiler_two_distinct_is_boolean (fun _ => true) (fun _ => true) (fun _ => true)
    ⟨"flag", "int64", [some "yes", some "no", none, some "yes"]⟩ (by decide)

/-- A profiled column (spec section 3): name, raw dtype, inferred type,
and the statistics the downstream stages read.  `nullPct`, `outlierPct`
and `dateParseRate` are fractions in [0,1]; `mean`/`std` are the numeric
stats; `cardinality` the distinct non-null count. -/
structure ColumnProfile where
  name : String
  dtype : String
  inferredType : InferredType
  cardinality : Nat
  nullPct : ℚ
  mean : ℚ
  std : ℚ
  outlierPct : ℚ
  dateParseRate : ℚ
deriving DecidableEq, Repr

/-- Clamp a rational to the quality-score range [0, 100]. -/
def clamp100 (x : ℚ) : ℚ := max 0 (min 100 x)

/-- Mean of a list of rationals (0 for the empty list). -/
def meanQ (xs : List ℚ) : ℚ :=
  if xs.length = 0 then 0 else xs.sum / xs.length

/-- Normalized spread of one numeric column: near-zero standard deviation
relative to the mean gives a value near 0, capped at 1. -/
def spreadOf (p : ColumnProfile) : ℚ :=
  if p.mean = 0 then (if p.std = 0 then 0 else 1)
  else min 1 (|p.std| / |p.mean|)

/-- Modelled from the spec: `compute_metrics.py` (the Data Quality
Scorer) is not under `src/`; component `completeness` of spec section
4.2, 100 times (1 minus the mean null percentage), clamped to [0,100]. -/
def completenessComponent (ps : List ColumnProfile) : ℚ :=
  clamp100 (100 * (1 - meanQ (ps.map (·.nullPct))))

/-- Modelled from the spec: component `variance` of spec section 4.2, a
normalized measure of numeric-column spread; numeric columns with
near-zero standard deviation relative to their mean penalize the score;
100 when no numeric column is present. -/
def varianceComponent (ps : List ColumnProfile) : ℚ :=
  let nums := ps.filter (fun p => p.inferredType == InferredType.numeric)
  if nums.isEmpty then 100
  else clamp100 (100 * meanQ (nums.map spreadOf))

/-- Modelled from the spec: component `cardinality` of spec section 4.2,
penalizing categorical columns whose cardinality is below 2 or above 50;
100 when no categorical column is present. -/
def cardinalityComponent (ps : List ColumnProfile) : ℚ :=
  let cats := ps.filter (fun p => p.inferredType == InferredType.categorical)
  if cats.isEmpty then 100
  else clamp100 (100 * (cats.filter (fun p => 2 ≤ p.cardinality && p.cardinality ≤ 50)).length /
    cats.length)

/-- Modelled from the spec: component `valid_dates` of spec section 4.2,
the percentage of date-typed columns whose parse success rate exceeds
90%; 100 when no date column is present. -/
def validDatesComponent (ps : List ColumnProfile) : ℚ :=
  let dates := ps.filter (fun p => p.inferredType == InferredType.date)
  if dates.isEmpty then 100
  else clamp100 (100 * (dates.filter (fun p => 9 / 10 < p.dateParseRate)).length / dates.length)

/-- Modelled from the spec: component `outliers` of spec section 4.2,
penalizing numeric columns with a high proportion of values beyond 3
standard deviations from the mean; 100 when no numeric column is
present. -/
def outliersComponent (ps : List ColumnProfile) : ℚ :=
  let nums := ps.filter (fun p => p.inferredType == InferredType.numeric)
  if nums.isEmpty then 100
  else clamp100 (100 * (1 - meanQ (nums.map (·.outlierPct))))

/-- Letter grade of a summary score (spec section 4.2): A at or above 85,
B at or above 70, C at or above 55, else D. -/
def gradeOf (s : ℚ) : String :=
  if 85 ≤ s then "A"
  else if 70 ≤ s then "B"
  else if 55 ≤ s then "C"
  else "D"

/-- The overall quality summary: score and letter grade. -/
structure QualitySummary where
  score : ℚ
  grade : String
deriving DecidableEq, Repr

/-- The data-quality profile (spec section 3): the five component scores
and the combined summary. -/
structure DataQualityProfile where
  completeness : ℚ
  variance : ℚ
  cardinality : ℚ
  validDates : ℚ
  outliers : ℚ
  summary : QualitySummary
deriving DecidableEq, Repr

/-- Modelled from the spec: the summary combiner of spec section 4.2, a
fixed weighted average of the five components.  The spec fixes the grade
cutoffs and that the weights are fixed and sum to 1.0 but does not state
their values; they are fixed here as completeness 3/10, variance 1/5,
cardinality 3/20, valid dates 1/5, outliers 3/20. -/
def summarize (c v k d o : ℚ) : QualitySummary :=
  let s := 3 / 10 * c + 1 / 5 * v + 3 / 20 * k + 1 / 5 * d + 3 / 20 * o
  ⟨s, gradeOf s⟩

/-- Modelled from the spec: the Data Quality Scorer of spec section 4.2
(`compute_metrics.py`, not under `src/`): ColumnProfiles plus row count
to DataQualityProfile, each component computed independently and clamped
to [0,100].  The row count is part of the inbound interface (spec
section 6); the modelled components are functions of the profiles. -/
def dataQuality (ps : List ColumnProfile) (rowCount : Nat) : DataQualityProfile :=
  let c := completenessComponent ps
  let v := varianceComponent ps
  let k := cardinalityComponent ps
  let d := validDatesComponent ps
  let o := outliersComponent ps
  { completeness := c, variance := v, cardinality := k, validDates := d, outliers := o,
    summary := summarize c v k d o }

theorem clamp100_nonneg (x : ℚ) : 0 ≤ clamp100 x := le_max_left 0 _

theorem clamp100_le_hundred (x : ℚ) : clamp100 x ≤ 100 :=
  max_le (by norm_num) (min_le_left 100 x)

theorem gradeOf_spec (s : ℚ) :
    (gradeOf s = "A" ↔ 85 ≤ s) ∧
    (gradeOf s = "B" ↔ 70 ≤ s ∧ s < 85) ∧
    (gradeOf s = "C" ↔ 55 ≤ s ∧ s < 70) ∧
    (gradeOf s = "D" ↔ s < 55) := by
  unfold gradeOf
  by_cases h1 : 85 ≤ s
  · rw [if_pos h1]
    exact ⟨⟨fun _ => h1, fun _ => rfl⟩,
      ⟨fun h => absurd h (by decide), fun hb => absurd hb.2 (not_lt.mpr h1)⟩,
      ⟨fun h => absurd h (by decide),
        fun hc => absurd hc.2 (not_lt.mpr (le_trans (by norm_num) h1))⟩,
      ⟨fun h => absurd h (by decide),
        fun hd => absurd hd (not_lt.mpr (le_trans (by norm_num) h1))⟩⟩
  · rw [if_neg h1]
    by_cases h2 : 70 ≤ s
    · rw [if_pos h2]
      exact ⟨⟨fun h => absurd h (by decide), fun ha => absurd ha h1⟩,
        ⟨fun _ => ⟨h2, not_le.mp h1⟩, fun _ => rfl⟩,
        ⟨fun h => absurd h (by decide), fun hc => absurd hc.2 (not_lt.mpr h2)⟩,
        ⟨fun h => absurd h (by decide),
          fun hd => absurd hd (not_lt.mpr (le_trans (by norm_num) h2))⟩⟩
    · rw [if_neg h2]
      by_cases h3 : 55 ≤ s
      · rw [if_pos h3]
        exact ⟨⟨fun h => absurd h (by decide), fun ha => absurd ha h1⟩,
          ⟨fun h => absurd h (by decide), fun hb => absurd hb.1 h2⟩,
          ⟨fun _ => ⟨h3, not_le.mp h2⟩, fun _ => rfl⟩,
          ⟨fun h => absurd h (by decide), fun hd => absurd hd (not_lt.mpr h3)⟩⟩
      · rw [if_neg h3]
        exact ⟨⟨fun h => absurd h (by decide), fun ha => absurd ha h1⟩,
          ⟨fun h => absurd h (by decide), fun hb => absurd hb.1 h2⟩,
          ⟨fun h => absurd h (by decide), fun hc => absurd hc.1 h3⟩,
          ⟨fun _ => not_le.mp h3, fun _ => rfl⟩⟩

theorem component_in_range (b : Bool) (x : ℚ) :
    0 ≤ (if b then 100 else clamp100 x) ∧ (if b then 100 else clamp100 x) ≤ 100 := by
  cases b
  · simpa using ⟨clamp100_nonneg x, clamp100_le_hundred x⟩
  · norm_num

/-- C8: for every DataQualityProfile produced by the scorer,
`summary.score` is the fixed weighted average of the five component
scores (completeness, variance, cardinality, valid_dates, outliers, each
in [0,100], weights summing to 1.0), and `grade` is A when score is at
least 85, B when in [70,85), C when in [55,70), and D below 55. -/
theorem quality_summary_weighted_average :
    ∀ (ps : List ColumnProfile) (rc : Nat),
      (3 : ℚ) / 10 + 1 / 5 + 3 / 20 + 1 / 5 + 3 / 20 = 1 ∧
      (dataQuality ps rc).summary.score =
        3 / 10 * (dataQuality ps rc).completeness +
        1 / 5 * (dataQuality ps rc).variance +
        3 / 20 * (dataQuality ps rc).cardinality +
        1 / 5 * (dataQuality ps rc).validDates +
        3 / 20 * (dataQuality ps rc).outliers ∧
      (0 ≤ (dataQuality ps rc).completeness ∧ (dataQuality ps rc).completeness ≤ 100) ∧
      (0 ≤ (dataQuality ps rc).variance ∧ (dataQuality ps rc).variance ≤ 100) ∧
      (0 ≤ (dataQuality ps rc).cardinality ∧ (dataQuality ps rc).cardinality ≤ 100) ∧
      (0 ≤ (dataQuality ps rc).validDates ∧ (dataQuality ps rc).validDates ≤ 100) ∧
      (0 ≤ (dataQuality ps rc).outliers ∧ (dataQuality ps rc).outliers ≤ 100) ∧
      ((dataQuality ps rc).summary.grade = "A" ↔ 85 ≤ (dataQuality ps rc).summary.score) ∧
      ((dataQuality ps rc).summary.grade = "B" ↔
        70 ≤ (dataQuality ps rc).summary.score ∧ (dataQuality ps rc).summary.score < 85) ∧
      ((dataQuality ps rc).summary.grade = "C" ↔
        55 ≤ (dataQuality ps rc).summary.score ∧ (dataQuality ps rc).summary.score < 70) ∧
      ((dataQuality ps rc).summary.grade = "D" ↔ (dataQuality ps rc).summary.score < 55) := by
  intro ps rc
  refine ⟨by norm_num, rfl, ⟨clamp100_nonneg _, clamp100_le_hundred _⟩,
    component_in_range _ _, component_in_range _ _, component_in_range _ _,
    component_in_range _ _, ?_, ?_, ?_, ?_⟩
  · exact (gradeOf_spec _).1
  · exact (gradeOf_spec _).2.1
  · exact (gradeOf_spec _).2.2.1
  · exact (gradeOf_spec _).2.2.2

/-- C3: the Data Quality Scorer is deterministic — it is a pure function
of the ColumnProfiles and row count, with no dependence on ambient
state, so two runs on identical inputs yield identical summary score and
grade. -/
theorem quality_scorer_deterministic :
    ∀ (ps₁ ps₂ : List ColumnProfile) (rc₁ rc₂ : Nat), ps₁ = ps₂ → rc₁ = rc₂ →
      (dataQuality ps₁ rc₁).summary.score = (dataQuality ps₂ rc₂).summary.score ∧
      (dataQuality ps₁ rc₁).summary.grade = (dataQuality ps₂ rc₂).summary.grade := by
  intro ps₁ ps₂ rc₁ rc₂ h1 h2
  subst h1
  subst h2
  exact ⟨rfl, rfl⟩

/-- Witness for C3: two runs of the scorer on an identical concrete
profile set and row count agree on score and grade. -/
theorem quality_scorer_deterministic_witness :
    (dataQuality [⟨"montant", "float64", InferredType.numeric, 25, 0, 380, 290, 1 / 50, 1⟩]
        340).summary.score =
      (dataQuality [⟨"montant", "float64", InferredType.numeric, 25, 0, 380, 290, 1 / 50, 1⟩]
        340).summary.score ∧
    (dataQuality [⟨"montant", "float64", InferredType.numeric, 25, 0, 380, 290, 1 / 50, 1⟩]
        340).summary.grade =
      (dataQuality [⟨"montant", "float64", InferredType.numeric, 25, 0, 380, 290, 1 / 50, 1⟩]
        340).summary.grade :=
  quality_scorer_deterministic _ _ _ _ rfl rfl

/-- A role assignment (spec section 3): primary measure, primary date,
dimensions, secondary measures, and columns to ignore. -/
structure RoleAssignment where
  primaryMeasure : Option String
  primaryDate : Option String
  dimensions : List String
  secondaryMeasures : List String
  ignore : List String
deriving DecidableEq, Repr

/-- Which strategy produced the role assignment. -/
inductive PlanSource where
  | llm
  | fallback
deriving DecidableEq, Repr

/-- Outcome of the external suggester call at its boundary: a
structurally parsed payload, or a failure (call error, timeout, or a
response failing schema validation). -/
inductive SuggesterOutcome where
  | success (r : RoleAssignment)
  | failure (reason : String)
deriving DecidableEq, Repr

/-- Look up a profile by column name (first match). -/
def findProfile (ps : List ColumnProfile) (n : String) : Option ColumnProfile :=
  ps.find? (fun p => p.name == n)

/-- Does a column of this name exist in the profile set? -/
def hasColumn (ps : List ColumnProfile) (n : String) : Bool :=
  (findProfile ps n).isSome

/-- The inferred type of the named column, when it exists. -/
def typeOf (ps : List ColumnProfile) (n : String) : Option InferredType :=
  (findProfile ps n).map (·.inferredType)

/-- Modelled from the spec: `plan_charts.py` (the Role Assigner) is not
under `src/`; validation of a suggester payload per spec sections 4.3
and 3: accept only if every referenced column name exists, the primary
measure is numeric and the primary date is a date column, and no name
appears in both dimensions and ignore (the RoleAssignment invariant of
section 3 — a payload violating it is structurally invalid data). -/
def validRoles (ps : List ColumnProfile) (r : RoleAssignment) : Bool :=
  (match r.primaryMeasure with
   | none => true
   | some m => typeOf ps m == some InferredType.numeric) &&
  (match r.primaryDate with
   | none => true
   | some d => typeOf ps d == some InferredType.date) &&
  r.dimensions.all (hasColumn ps) &&
  r.secondaryMeasures.all (hasColumn ps) &&
  r.ignore.all (hasColumn ps) &&
  r.dimensions.all (fun n => !(r.ignore.contains n))

/-- First element attaining the maximal key (ties keep the earlier
element). -/
def argmaxBy (f : α → ℚ) : List α → Option α
  | [] => none
  | x :: xs =>
    match argmaxBy f xs with
    | none => some x
    | some y => if f x < f y then some y else some x

/-- Stable insertion step for ascending sort by a natural key. -/
def insertAscBy (key : α → Nat) (x : α) : List α → List α
  | [] => [x]
  | y :: ys => if key x ≤ key y then x :: y :: ys else y :: insertAscBy key x ys

/-- Stable ascending sort by a natural key. -/
def sortAscBy (key : α → Nat) : List α → List α
  | [] => []
  | x :: xs => insertAscBy key x (sortAscBy key xs)

/-- Modelled from the spec: the deterministic heuristic fallback of spec
section 4.3 (`plan_charts.py`, not under `src/`): the primary measure is
the numeric column of highest variance score, the primary date the date
column with the highest parse success rate, the dimensions up to 5
categorical columns ordered by ascending cardinality excluding any
already chosen, the secondary measures the remaining numeric columns,
and ignore all id and text columns. -/
def heuristicRoles (ps : List ColumnProfile) : RoleAssignment :=
  let nums := ps.filter (fun p => p.inferredType == InferredType.numeric)
  let pm := argmaxBy spreadOf nums
  let dates := ps.filter (fun p => p.inferredType == InferredType.date)
  let pd := argmaxBy (·.dateParseRate) dates
  let chosen := (pm.map (·.name)).toList ++ (pd.map (·.name)).toList
  let cats := ps.filter
    (fun p => p.inferredType == InferredType.categorical && !(chosen.contains p.name))
  let dims := ((sortAscBy (·.cardinality) cats).map (·.name)).take 5
  let secs := (nums.filter (fun p => some p.name != pm.map (·.name))).map (·.name)
  let ign := (ps.filter
    (fun p => p.inferredType == InferredType.id || p.inferredType == InferredType.text)).map
    (·.name)
  { primaryMeasure := pm.map (·.name), primaryDate := pd.map (·.name),
    dimensions := dims, secondaryMeasures := secs, ignore := ign }

/-- Modelled from the spec: the Role Assigner of spec section 4.3: the
suggester payload is accepted only when it validates, otherwise the
heuristic fallback is used silently; the plan source tag records which
path was taken. -/
def assignRoles (ps : List ColumnProfile) (outcome : SuggesterOutcome) :
    RoleAssignment × PlanSource :=
  match outcome with
  | .success r => if validRoles ps r then (r, .llm) else (heuristicRoles ps, .fallback)
  | .failure _ => (heuristicRoles ps, .fallback)

/-- The suggester call errored, timed out, or returned structurally
invalid data (including a payload rejected by validation). -/
def suggesterRejected (ps : List ColumnProfile) (outcome : SuggesterOutcome) : Bool :=
  match outcome with
  | .success r => !validRoles ps r
  | .failure _ => true

/-- Every column name referenced by a role assignment exists in the
profile set. -/
def rolesNamesExist (ps : List ColumnProfile) (r : RoleAssignment) : Prop :=
  (∀ m, r.primaryMeasure = some m → hasColumn ps m = true) ∧
  (∀ d, r.primaryDate = some d → hasColumn ps d = true) ∧
  (∀ n ∈ r.dimensions, hasColumn ps n = true) ∧
  (∀ n ∈ r.secondaryMeasures, hasColumn ps n = true) ∧
  (∀ n ∈ r.ignore, hasColumn ps n = true)

theorem argmaxBy_mem (f : α → ℚ) (l : List α) (x : α) (h : argmaxBy f l = some x) :
    x ∈ l := by
  induction l with
  | nil => simp [argmaxBy] at h
  | cons a as ih =>
    simp only [argmaxBy] at h
    split at h
    · simp only [Option.some.injEq] at h
      exact h ▸ List.mem_cons_self a as
    · rename_i y hm
      split at h
      · simp only [Option.some.injEq] at h
        exact List.mem_cons_of_mem a (ih (h ▸ hm))
      · simp only [Option.some.injEq] at h
        exact h ▸ List.mem_cons_self a as

theorem mem_insertAscBy (key : α → Nat) (x a : α) (l : List α) :
    a ∈ insertAscBy key x l ↔ a = x ∨ a ∈ l := by
  induction l with
  | nil => simp [insertAscBy]
  | cons y ys ih =>
    simp only [insertAscBy]
    by_cases h : key x ≤ key y
    · rw [if_pos h]
      simp [List.mem_cons]
    · rw [if_neg h]
      simp only [List.mem_cons, ih]
      tauto

theorem mem_sortAscBy (key : α → Nat) (a : α) (l : List α) :
    a ∈ sortAscBy key l ↔ a ∈ l := by
  induction l with
  | nil => simp [sortAscBy]
  | cons x xs ih =>
    simp only [sortAscBy, mem_insertAscBy, ih, List.mem_cons]

theorem findProfile_eq_of_nodup (ps : List ColumnProfile) (p : ColumnProfile)
    (hnd : (ps.map (·.name)).Nodup) (hp : p ∈ ps) : findProfile ps p.name = some p := by
  induction ps with
  | nil => cases hp
  | cons q qs ih =>
    rw [List.map_cons, List.nodup_cons] at hnd
    rcases List.mem_cons.mp hp with rfl | hmem
    · exact List.find?_cons_of_pos qs (by simp)
    · have hne : q.name ≠ p.name := by
        intro he
        exact hnd.1 (he ▸ List.mem_map_of_mem (·.name) hmem)
      unfold findProfile
      rw [List.find?_cons_of_neg qs (by simp [hne]), ← findProfile]
      exact ih hnd.2 hmem

theorem hasColumn_of_mem (ps : List ColumnProfile) (p : ColumnProfile) (hp : p ∈ ps) :
    hasColumn ps p.name = true := by
  have h : (ps.find? (fun q => q.name == p.name)).isSome := List.find?_isSome.mpr ⟨p, hp, by simp⟩
  simpa [hasColumn, findProfile] using h

theorem typeOf_of_mem_nodup (ps : List ColumnProfile) (p : ColumnProfile)
    (hnd : (ps.map (·.name)).Nodup) (hp : p ∈ ps) :
    typeOf ps p.name = some p.inferredType := by
  unfold typeOf
  rw [findProfile_eq_of_nodup ps p hnd hp]
  rfl

theorem hasColumn_of_typeOf (ps : List ColumnProfile) (n : String) (t : InferredType)
    (h : typeOf ps n = some t) : hasColumn ps n = true := by
  unfold typeOf at h
  rcases Option.map_eq_some'.mp h with ⟨p, hfind, _⟩
  unfold hasColumn
  rw [hfind]
  rfl

theorem heuristic_pm_spec (ps : List ColumnProfile) (m : String)
    (hm : (heuristicRoles ps).primaryMeasure = some m) :
    ∃ p ∈ ps, p.name = m ∧ p.inferredType = InferredType.numeric := by
  simp only [heuristicRoles] at hm
  rcases Option.map_eq_some'.mp hm with ⟨p, hp, rfl⟩
  have hmem := argmaxBy_mem _ _ _ hp
  rw [List.mem_filter] at hmem
  exact ⟨p, hmem.1, rfl, beq_iff_eq.mp hmem.2⟩

theorem heuristic_pd_spec (ps : List ColumnProfile) (d : String)
    (hd : (heuristicRoles ps).primaryDate = some d) :
    ∃ p ∈ ps, p.name = d ∧ p.inferredType = InferredType.date := by
  simp only [heuristicRoles] at hd
  rcases Option.map_eq_some'.mp hd with ⟨p, hp, rfl⟩
  have hmem := argmaxBy_mem _ _ _ hp
  rw [List.mem_filter] at hmem
  exact ⟨p, hmem.1, rfl, beq_iff_eq.mp hmem.2⟩

theorem heuristic_dims_spec (ps : List ColumnProfile) (n : String)
    (hn : n ∈ (heuristicRoles ps).dimensions) :
    ∃ p ∈ ps, p.name = n ∧ p.inferredType = InferredType.categorical := by
  simp only [heuristicRoles] at hn
  have hn' := List.mem_of_mem_take hn
  rcases List.mem_map.mp hn' with ⟨p, hp, rfl⟩
  rw [mem_sortAscBy, List.mem_filter] at hp
  obtain ⟨hps, hcond⟩ := hp
  rw [Bool.and_eq_true] at hcond
  exact ⟨p, hps, rfl, beq_iff_eq.mp hcond.1⟩

theorem heuristic_secs_spec (ps : List ColumnProfile) (n : String)
    (hn : n ∈ (heuristicRoles ps).secondaryMeasures) :
    ∃ p ∈ ps, p.name = n ∧ p.inferredType = InferredType.numeric := by
  simp only [heuristicRoles] at hn
  rcases List.mem_map.mp hn with ⟨p, hp, rfl⟩
  rw [List.mem_filter] at hp
  obtain ⟨hp1, _⟩ := hp
  rw [List.mem_filter] at hp1
  exact ⟨p, hp1.1, rfl, beq_iff_eq.mp hp1.2⟩

theorem heuristic_ignore_spec (ps : List ColumnProfile) (n : String)
    (hn : n ∈ (heuristicRoles ps).ignore) :
    ∃ q ∈ ps, q.name = n ∧
      (q.inferredType = InferredType.id ∨ q.inferredType = InferredType.text) := by
  simp only [heuristicRoles] at hn
  rcases List.mem_map.mp hn with ⟨q, hq, rfl⟩
  rw [List.mem_filter] at hq
  obtain ⟨hqs, hcond⟩ := hq
  rw [Bool.or_eq_true] at hcond
  exact ⟨q, hqs, rfl, hcond.imp beq_iff_eq.mp beq_iff_eq.mp⟩

theorem heuristicRoles_invariants (ps : List ColumnProfile)
    (hnd : (ps.map (·.name)).Nodup) :
    rolesNamesExist ps (heuristicRoles ps) ∧
    (∀ n ∈ (heuristicRoles ps).dimensions, n ∉ (heuristicRoles ps).ignore) ∧
    (∀ m, (heuristicRoles ps).primaryMeasure = some m →
      typeOf ps m = some InferredType.numeric) := by
  refine ⟨⟨?_, ?_, ?_, ?_, ?_⟩, ?_, ?_⟩
  · intro m hm
    obtain ⟨p, hp, rfl, _⟩ := heuristic_pm_spec ps m hm
    exact hasColumn_of_mem ps p hp
  · intro d hd
    obtain ⟨p, hp, rfl, _⟩ := heuristic_pd_spec ps d hd
    exact hasColumn_of_mem ps p hp
  · intro n hn
    obtain ⟨p, hp, rfl, _⟩ := heuristic_dims_spec ps n hn
    exact hasColumn_of_mem ps p hp
  · intro n hn
    obtain ⟨p, hp, rfl, _⟩ := heuristic_secs_spec ps n hn
    exact hasColumn_of_mem ps p hp
  · intro n hn
    obtain ⟨q, hq, rfl, _⟩ := heuristic_ignore_spec ps n hn
    exact hasColumn_of_mem ps q hq
  · intro n hn hmem
    obtain ⟨p, hp, hpn, hptype⟩ := heuristic_dims_spec ps n hn
    obtain ⟨q, hq, hqn, hqtype⟩ := heuristic_ignore_spec ps n hmem
    have hpq : p = q :=
      List.inj_on_of_nodup_map hnd hp hq (by rw [hpn, hqn])
    rcases hqtype with ht | ht <;> rw [hpq, ht] at hptype <;> cases hptype
  · intro m hm
    obtain ⟨p, hp, rfl, hnum⟩ := heuristic_pm_spec ps m hm
    rw [typeOf_of_mem_nodup ps p hnd hp, hnum]

/-- C4: every RoleAssignment produced by the Role Assigner — on the
suggester path or the heuristic fallback — only references column names
existing in the ColumnProfile set; no name appears in both `dimensions`
and `ignore`; and `primary_measure`, when non-null, names a column with
`inferred_type = numeric`.  (The profile set has one profile per source
column, so column names are assumed distinct.) -/
theorem role_assigner_invariants :
    ∀ (ps : List ColumnProfile) (outcome : SuggesterOutcome),
      (ps.map (·.name)).Nodup →
      rolesNamesExist ps (assignRoles ps outcome).1 ∧
      (∀ n ∈ (assignRoles ps outcome).1.dimensions, n ∉ (assignRoles ps outcome).1.ignore) ∧
      (∀ m, (assignRoles ps outcome).1.primaryMeasure = some m →
        typeOf ps m = some InferredType.numeric) := by
  intro ps outcome hnd
  have hheur := heuristicRoles_invariants ps hnd
  cases outcome with
  | failure msg =>
    simpa only [assignRoles] using hheur
  | success r =>
    by_cases hv : validRoles ps r = true
    · have hred : assignRoles ps (.success r) = (r, .llm) := by
        simp [assignRoles, hv]
      rw [hred]
      simp only [validRoles, Bool.and_eq_true] at hv
      obtain ⟨⟨⟨⟨⟨h1, h2⟩, h3⟩, h4⟩, h5⟩, h6⟩ := hv
      refine ⟨⟨?_, ?_, ?_, ?_, ?_⟩, ?_, ?_⟩
      · intro m hm
        rw [hm] at h1
        exact hasColumn_of_typeOf ps m _ (beq_iff_eq.mp h1)
      · intro d hd
        rw [hd] at h2
        exact hasColumn_of_typeOf ps d _ (beq_iff_eq.mp h2)
      · exact List.all_eq_true.mp h3
      · exact List.all_eq_true.mp h4
      · exact List.all_eq_true.mp h5
      · intro n hn hmem
        have hc := List.all_eq_true.mp h6 n hn
        rw [Bool.not_eq_true'] at hc
        have hel : r.ignore.elem n = true := List.elem_iff.mpr hmem
        have hc' : r.ignore.elem n = false := hc
        rw [hel] at hc'
        cases hc'
      · intro m hm
        rw [hm] at h1
        exact beq_iff_eq.mp h1
    · have hred : assignRoles ps (.success r) = (heuristicRoles ps, .fallback) := by
        simp [assignRoles, hv]
      rw [hred]
      exact hheur

/-- A small concrete profile set used by witnesses: one numeric, one
categorical and one identifier column, with distinct names. -/
def sampleProfiles : List ColumnProfile :=
  [⟨"montant", "float64", InferredType.numeric, 120, 0, 380, 290, 1 / 50, 0⟩,
   ⟨"technicien", "object", InferredType.categorical, 8, 1 / 100, 0, 0, 0, 0⟩,
   ⟨"client_id", "int64", InferredType.id, 280, 0, 0, 0, 0, 0⟩]

/-- Witness for C4: the invariants hold at a concrete profile set with
distinct names and a failing suggester outcome. -/
theorem role_assigner_invariants_witness :
    (sampleProfiles.map (·.name)).Nodup ∧
    (rolesNamesExist sampleProfiles
        (assignRoles sampleProfiles (.failure "timeout")).1 ∧
      (∀ n ∈ (assignRoles sampleProfiles (.failure "timeout")).1.dimensions,
        n ∉ (assignRoles sampleProfiles (.failure "timeout")).1.ignore) ∧
      (∀ m, (assignRoles sampleProfiles (.failure "timeout")).1.primaryMeasure = some m →
        typeOf sampleProfiles m = some InferredType.numeric)) :=
  ⟨by decide, role_assigner_invariants sampleProfiles (.failure "timeout") (by decide)⟩

/-- The fixed chart-type catalog (spec section 4.4). -/
inductive ChartType where
  | line
  | barHorizontal
  | donut
  | barGrouped
  | scatter
  | areaStacked
  | heatmap
  | funnel
deriving DecidableEq, Repr

/-- A chart candidate (spec section 3): identifier, type, role-slot
column names, eligibility, and the structural rejection reason kept for
ineligible candidates. -/
structure ChartCandidate where
  id : String
  type : ChartType
  xSlot : Option String
  ySlot : Option String
  seriesSlot : Option String
  eligible : Bool
  rejectionReason : Option String
deriving DecidableEq, Repr

/-- Modelled from the spec: a role slot is filled correctly when the
named column exists, has the required inferred type, and is not
ignored (spec section 4.4). -/
def slotOk (ps : List ColumnProfile) (r : RoleAssignment) (t : InferredType) (n : String) :
    Bool :=
  match findProfile ps n with
  | some p => p.inferredType == t && !(r.ignore.contains n)
  | none => false

/-- Modelled from the spec: a generic two-slot candidate of the catalog
(line, bar_horizontal, scatter, funnel), eligible iff both slots are
filled by non-ignored columns of the required types. -/
def mkTwoSlot (ct : ChartType) (tag : String) (ps : List ColumnProfile) (r : RoleAssignment)
    (tx ty : InferredType) (x y : String) : ChartCandidate :=
  if slotOk ps r tx x && slotOk ps r ty y then
    ⟨tag ++ x, ct, some x, some y, none, true, none⟩
  else
    ⟨tag ++ x, ct, some x, some y, none, false,
      some "required role slots unfilled or violate type constraints"⟩

/-- Modelled from the spec: a generic three-slot candidate of the catalog
(bar_grouped, area_stacked, heatmap). -/
def mkThreeSlot (ct : ChartType) (tag : String) (ps : List ColumnProfile)
    (r : RoleAssignment) (tx ty tz : InferredType) (x y z : String) : ChartCandidate :=
  if slotOk ps r tx x && slotOk ps r ty y && slotOk ps r tz z then
    ⟨tag ++ x, ct, some x, some y, some z, true, none⟩
  else
    ⟨tag ++ x, ct, some x, some y, some z, false,
      some "required role slots unfilled or violate type constraints"⟩

/-- Modelled from the spec: the donut candidate of spec section 4.4 —
one categorical plus one numeric column, and the categorical dimension
must have at most 8 distinct values; above 8 the candidate is kept with
`eligible = false` and a structural reason. -/
def mkDonut (ps : List ColumnProfile) (r : RoleAssignment) (cat m : String) :
    ChartCandidate :=
  match findProfile ps cat, findProfile ps m with
  | some cp, some mp =>
    if cp.inferredType == InferredType.categorical && mp.inferredType == InferredType.numeric
        && !(r.ignore.contains cat) && !(r.ignore.contains m) then
      if cp.cardinality ≤ 8 then
        ⟨"donut_" ++ cat, .donut, some cat, some m, none, true, none⟩
      else
        ⟨"donut_" ++ cat, .donut, some cat, some m, none, false,
          some "categorical dimension has more than 8 distinct values"⟩
    else
      ⟨"donut_" ++ cat, .donut, some cat, some m, none, false,
        some "required role slots unfilled or violate type constraints"⟩
  | _, _ =>
    ⟨"donut_" ++ cat, .donut, some cat, some m, none, false,
      some "required role slots unfilled or violate type constraints"⟩

/-- Line candidates: primary date against primary measure. -/
def lineCandidates (ps : List ColumnProfile) (r : RoleAssignment) : List ChartCandidate :=
  match r.primaryDate, r.primaryMeasure with
  | some d, some m =>
    [mkTwoSlot .line "line_" ps r InferredType.date InferredType.numeric d m]
  | _, _ => []

/-- Horizontal-bar candidates: each dimension against the primary
measure. -/
def barCandidates (ps : List ColumnProfile) (r : RoleAssignment) : List ChartCandidate :=
  match r.primaryMeasure with
  | some m =>
    r.dimensions.map
      (fun c => mkTwoSlot .barHorizontal "bar_" ps r InferredType.categorical
        InferredType.numeric c m)
  | none => []

/-- Donut candidates: each dimension against the primary measure. -/
def donutCandidates (ps : List ColumnProfile) (r : RoleAssignment) : List ChartCandidate :=
  match r.primaryMeasure with
  | some m => r.dimensions.map (fun c => mkDonut ps r c m)
  | none => []

/-- Grouped-bar candidates: the first two dimensions against the primary
measure. -/
def groupedCandidates (ps : List ColumnProfile) (r : RoleAssignment) : List ChartCandidate :=
  match r.dimensions, r.primaryMeasure with
  | c1 :: c2 :: _, some m =>
    [mkThreeSlot .barGrouped "grouped_" ps r InferredType.categorical
      InferredType.categorical InferredType.numeric c1 c2 m]
  | _, _ => []

/-- Scatter candidates: the primary measure against the first secondary
measure. -/
def scatterCandidates (ps : List ColumnProfile) (r : RoleAssignment) : List ChartCandidate :=
  match r.primaryMeasure, r.secondaryMeasures with
  | some m, m2 :: _ =>
    [mkTwoSlot .scatter "scatter_" ps r InferredType.numeric InferredType.numeric m m2]
  | _, _ => []

/-- Stacked-area candidates: primary date, first dimension and primary
measure. -/
def areaCandidates (ps : List ColumnProfile) (r : RoleAssignment) : List ChartCandidate :=
  match r.primaryDate, r.dimensions, r.primaryMeasure with
  | some d, c :: _, some m =>
    [mkThreeSlot .areaStacked "area_" ps r InferredType.date InferredType.categorical
      InferredType.numeric d c m]
  | _, _, _ => []

/-- Heatmap candidates: the first two dimensions against the primary
measure. -/
def heatCandidates (ps : List ColumnProfile) (r : RoleAssignment) : List ChartCandidate :=
  match r.dimensions, r.primaryMeasure with
  | c1 :: c2 :: _, some m =>
    [mkThreeSlot .heatmap "heat_" ps r InferredType.categorical InferredType.categorical
      InferredType.numeric c1 c2 m]
  | _, _ => []

/-- Funnel candidates: the first dimension (as the ordered categorical)
against the primary measure. -/
def funnelCandidates (ps : List ColumnProfile) (r : RoleAssignment) : List ChartCandidate :=
  match r.dimensions, r.primaryMeasure with
  | c :: _, some m =>
    [mkTwoSlot .funnel "funnel_" ps r InferredType.categorical InferredType.numeric c m]
  | _, _ => []

/-- Modelled from the spec: the Chart Candidate Generator of spec
section 4.4 (`plan_charts.py`, not under `src/`): enumerates candidates
for the whole catalog given roles and profiles, keeping ineligible
candidates with `eligible = false` and a structural reason. -/
def generateCandidates (ps : List ColumnProfile) (r : RoleAssignment) :
    List ChartCandidate :=
  lineCandidates ps r ++ barCandidates ps r ++ donutCandidates ps r ++
    groupedCandidates ps r ++ scatterCandidates ps r ++ areaCandidates ps r ++
    heatCandidates ps r ++ funnelCandidates ps r

/-- Catalog priority order for tie-breaking (spec section 4.5): charts
humans scan fastest come first. -/
def chartRank : ChartType → Nat
  | .line => 0
  | .barHorizontal => 1
  | .donut => 2
  | .barGrouped => 3
  | .scatter => 4
  | .areaStacked => 5
  | .heatmap => 6
  | .funnel => 7

/-- Modelled from the spec: the chart-specific base heuristic of spec
section 4.5 is only constrained by example; it is fixed here as a base
value per chart type, decreasing along the catalog priority order. -/
def baseScore : ChartType → ℚ
  | .line => 90
  | .barHorizontal => 85
  | .donut => 80
  | .barGrouped => 75
  | .scatter => 70
  | .areaStacked => 65
  | .heatmap => 60
  | .funnel => 55

/-- Modelled from the spec: a candidate's score combines the overall
data-quality scale factor (summary score over 100, spec section 4.2)
with the chart-specific heuristic. -/
def scoreOf (q : DataQualityProfile) (c : ChartCandidate) : ℚ :=
  q.summary.score / 100 * baseScore c.type

/-- Ordering used by the selector: descending by score, ties broken by
catalog priority order. -/
def candBefore (a b : ChartCandidate × ℚ) : Bool :=
  decide (b.2 < a.2) || (a.2 == b.2 && decide (chartRank a.1.type ≤ chartRank b.1.type))

/-- Insertion step of the generic insertion sort by a Boolean order. -/
def insertByRel (le : α → α → Bool) (x : α) : List α → List α
  | [] => [x]
  | y :: ys => if le x y then x :: y :: ys else y :: insertByRel le x ys

/-- Generic insertion sort by a Boolean order. -/
def sortByRel (le : α → α → Bool) : List α → List α
  | [] => []
  | x :: xs => insertByRel le x (sortByRel le xs)

/-- A skipped candidate with its concrete reason string (spec section 3,
`rejection_reason`). -/
structure SkipEntry where
  cand : ChartCandidate
  score : Option ℚ
  reason : String
deriving DecidableEq, Repr

/-- Modelled from the spec: the Chart Scorer & Selector of spec section
4.5 (not under `src/`): ineligible candidates are skipped with their
structural reason; eligible candidates are scored; candidates scoring
below the caller-supplied `min_score` are skipped with reason "below
quality threshold"; the remainder is sorted descending by score with
ties broken by catalog priority; the top `max_charts` are generated and
the rest skipped with reason "exceeded chart cap". -/
def selectCharts (cands : List ChartCandidate) (q : DataQualityProfile) (minScore : ℚ)
    (maxCharts : Nat) : List (ChartCandidate × ℚ) × List SkipEntry :=
  let inelig := cands.filter (fun c => !c.eligible)
  let elig := cands.filter (fun c => c.eligible)
  let scored := elig.map (fun c => (c, scoreOf q c))
  let below := scored.filter (fun e => decide (e.2 < minScore))
  let above := scored.filter (fun e => decide (minScore ≤ e.2))
  let ranked := sortByRel candBefore above
  (ranked.take maxCharts,
    inelig.map (fun c => ⟨c, none, c.rejectionReason.getD "structurally ineligible"⟩) ++
      below.map (fun e => ⟨e.1, some e.2, "below quality threshold"⟩) ++
      (ranked.drop maxCharts).map (fun e => ⟨e.1, some e.2, "exceeded chart cap"⟩))

theorem mem_insertByRel (le : α → α → Bool) (x a : α) (l : List α) :
    a ∈ insertByRel le x l ↔ a = x ∨ a ∈ l := by
  induction l with
  | nil => simp [insertByRel]
  | cons y ys ih =>
    simp only [insertByRel]
    by_cases h : le x y = true
    · rw [if_pos h]
      simp [List.mem_cons]
    · rw [if_neg h]
      simp only [List.mem_cons, ih]
      tauto

theorem mem_sortByRel (le : α → α → Bool) (a : α) (l : List α) :
    a ∈ sortByRel le l ↔ a ∈ l := by
  induction l with
  | nil => simp [sortByRel]
  | cons x xs ih =>
    simp only [sortByRel, mem_insertByRel, ih, List.mem_cons]

theorem mkTwoSlot_type (ct : ChartType) (tag : String) (ps : List ColumnProfile)
    (r : RoleAssignment) (tx ty : InferredType) (x y : String) :
    (mkTwoSlot ct tag ps r tx ty x y).type = ct := by
  unfold mkTwoSlot
  split <;> rfl

theorem mkThreeSlot_type (ct : ChartType) (tag : String) (ps : List ColumnProfile)
    (r : RoleAssignment) (tx ty tz : InferredType) (x y z : String) :
    (mkThreeSlot ct tag ps r tx ty tz x y z).type = ct := by
  unfold mkThreeSlot
  split <;> rfl

theorem mkDonut_xSlot (ps : List ColumnProfile) (r : RoleAssignment) (cat m : String) :
    (mkDonut ps r cat m).xSlot = some cat := by
  unfold mkDonut
  split
  · split
    · split <;> rfl
    · rfl
  · rfl

theorem lineCandidates_type (ps : List ColumnProfile) (r : RoleAssignment)
    (c : ChartCandidate) (hc : c ∈ lineCandidates ps r) : c.type = ChartType.line := by
  unfold lineCandidates at hc
  split at hc
  · rw [List.mem_singleton] at hc
    rw [hc]
    exact mkTwoSlot_type ..
  · cases hc

theorem barCandidates_type (ps : List ColumnProfile) (r : RoleAssignment)
    (c : ChartCandidate) (hc : c ∈ barCandidates ps r) :
    c.type = ChartType.barHorizontal := by
  unfold barCandidates at hc
  split at hc
  · rcases List.mem_map.mp hc with ⟨d, _, rfl⟩
    exact mkTwoSlot_type ..
  · cases hc

theorem donutCandidates_shape (ps : List ColumnProfile) (r : RoleAssignment)
    (c : ChartCandidate) (hc : c ∈ donutCandidates ps r) :
    ∃ cat m, c = mkDonut ps r cat m := by
  unfold donutCandidates at hc
  split at hc
  · rcases List.mem_map.mp hc with ⟨d, _, rfl⟩
    exact ⟨d, _, rfl⟩
  · cases hc

theorem groupedCandidates_type (ps : List ColumnProfile) (r : RoleAssignment)
    (c : ChartCandidate) (hc : c ∈ groupedCandidates ps r) :
    c.type = ChartType.barGrouped := by
  unfold groupedCandidates at hc
  split at hc
  · rw [List.mem_singleton] at hc
    rw [hc]
    exact mkThreeSlot_type ..
  · cases hc

theorem scatterCandidates_type (ps : List ColumnProfile) (r : RoleAssignment)
    (c : ChartCandidate) (hc : c ∈ scatterCandidates ps r) :
    c.type = ChartType.scatter := by
  unfold scatterCandidates at hc
  split at hc
  · rw [List.mem_singleton] at hc
    rw [hc]
    exact mkTwoSlot_type ..
  · cases hc

theorem areaCandidates_type (ps : List ColumnProfile) (r : RoleAssignment)
    (c : ChartCandidate) (hc : c ∈ areaCandidates ps r) :
    c.type = ChartType.areaStacked := by
  unfold areaCandidates at hc
  split at hc
  · rw [List.mem_singleton] at hc
    rw [hc]
    exact mkThreeSlot_type ..
  · cases hc

theorem heatCandidates_type (ps : List ColumnProfile) (r : RoleAssignment)
    (c : ChartCandidate) (hc : c ∈ heatCandidates ps r) : c.type = ChartType.heatmap := by
  unfold heatCandidates at hc
  split at hc
  · rw [List.mem_singleton] at hc
    rw [hc]
    exact mkThreeSlot_type ..
  · cases hc

theorem funnelCandidates_type (ps : List ColumnProfile) (r : RoleAssignment)
    (c : ChartCandidate) (hc : c ∈ funnelCandidates ps r) : c.type = ChartType.funnel := by
  unfold funnelCandidates at hc
  split at hc
  · rw [List.mem_singleton] at hc
    rw [hc]
    exact mkTwoSlot_type ..
  · cases hc

theorem donut_mem_generateCandidates (ps : List ColumnProfile) (r : RoleAssignment)
    (c : ChartCandidate) (hc : c ∈ generateCandidates ps r)
    (htype : c.type = ChartType.donut) : ∃ cat m, c = mkDonut ps r cat m := by
  simp only [generateCandidates, List.mem_append] at hc
  rcases hc with ((((((h | h) | h) | h) | h) | h) | h) | h
  · exact absurd ((lineCandidates_type ps r c h).symm.trans htype) (by decide)
  · exact absurd ((barCandidates_type ps r c h).symm.trans htype) (by decide)
  · exact donutCandidates_shape ps r c h
  · exact absurd ((groupedCandidates_type ps r c h).symm.trans htype) (by decide)
  · exact absurd ((scatterCandidates_type ps r c h).symm.trans htype) (by decide)
  · exact absurd ((areaCandidates_type ps r c h).symm.trans htype) (by decide)
  · exact absurd ((heatCandidates_type ps r c h).symm.trans htype) (by decide)
  · exact absurd ((funnelCandidates_type ps r c h).symm.trans htype) (by decide)

theorem mkDonut_card_spec (ps : List ColumnProfile) (r : RoleAssignment) (cat m : String)
    (cp : ColumnProfile) (hfind : findProfile ps cat = some cp) :
    (8 < cp.cardinality → (mkDonut ps r cat m).eligible = false ∧
      (mkDonut ps r cat m).rejectionReason.isSome = true) ∧
    ((mkDonut ps r cat m).eligible = true → cp.cardinality ≤ 8) := by
  cases hmp : findProfile ps m with
  | none =>
    have he : mkDonut ps r cat m =
        ⟨"donut_" ++ cat, .donut, some cat, some m, none, false,
          some "required role slots unfilled or violate type constraints"⟩ := by
      simp [mkDonut, hfind, hmp]
    rw [he]
    exact ⟨fun _ => ⟨rfl, rfl⟩, fun h => absurd h Bool.false_ne_true⟩
  | some mp =>
    have he : mkDonut ps r cat m =
        (if cp.inferredType == InferredType.categorical &&
            mp.inferredType == InferredType.numeric && !(r.ignore.contains cat) &&
            !(r.ignore.contains m) then
          if cp.cardinality ≤ 8 then
            ⟨"donut_" ++ cat, .donut, some cat, some m, none, true, none⟩
          else
            ⟨"donut_" ++ cat, .donut, some cat, some m, none, false,
              some "categorical dimension has more than 8 distinct values"⟩
        else
          ⟨"donut_" ++ cat, .donut, some cat, some m, none, false,
            some "required role slots unfilled or violate type constraints"⟩) := by
      simp [mkDonut, hfind, hmp]
    rw [he]
    by_cases ht : (cp.inferredType == InferredType.categorical &&
        mp.inferredType == InferredType.numeric && !(r.ignore.contains cat) &&
        !(r.ignore.contains m)) = true
    · rw [if_pos ht]
      by_cases hcard : cp.cardinality ≤ 8
      · rw [if_pos hcard]
        exact ⟨fun hgt => absurd hgt (not_lt.mpr hcard), fun _ => hcard⟩
      · rw [if_neg hcard]
        exact ⟨fun _ => ⟨rfl, rfl⟩, fun h => absurd h Bool.false_ne_true⟩
    · rw [if_neg ht]
      exact ⟨fun _ => ⟨rfl, rfl⟩, fun h => absurd h Bool.false_ne_true⟩

theorem selected_entries_eligible (cands : List ChartCandidate) (q : DataQualityProfile)
    (minScore : ℚ) (maxCharts : Nat) (e : ChartCandidate × ℚ)
    (he : e ∈ (selectCharts cands q minScore maxCharts).1) : e.1.eligible = true := by
  simp only [selectCharts] at he
  have h1 := List.mem_of_mem_take he
  rw [mem_sortByRel, List.mem_filter] at h1
  rcases List.mem_map.mp h1.1 with ⟨c, hc, rfl⟩
  rw [List.mem_filter] at hc
  exact hc.2

/-- C2: for every RoleAssignment and ColumnProfile set given to the
Chart Candidate Generator, every donut candidate whose categorical
column has more than 8 distinct values is marked `eligible = false`,
kept with a structural reason and never selected; a donut candidate is
eligible only when its categorical column has at most 8 distinct
values. -/
theorem donut_over_eight_ineligible :
    ∀ (ps : List ColumnProfile) (r : RoleAssignment) (c : ChartCandidate),
      c ∈ generateCandidates ps r → c.type = ChartType.donut →
      (∀ catName cp, c.xSlot = some catName → findProfile ps catName = some cp →
        (8 < cp.cardinality → c.eligible = false ∧ c.rejectionReason.isSome = true) ∧
        (c.eligible = true → cp.cardinality ≤ 8)) ∧
      (c.eligible = false → ∀ (q : DataQualityProfile) (mS : ℚ) (mC : Nat) (s : ℚ),
        (c, s) ∉ (selectCharts (generateCandidates ps r) q mS mC).1) := by
  intro ps r c hc htype
  obtain ⟨cat, m, rfl⟩ := donut_mem_generateCandidates ps r c hc htype
  constructor
  · intro catName cp hx hfind
    have hxs := mkDonut_xSlot ps r cat m
    rw [hx] at hxs
    have hcc : catName = cat := Option.some.inj hxs
    subst hcc
    exact mkDonut_card_spec ps r catName m cp hfind
  · intro hel q mS mC s hmem
    have helig := selected_entries_eligible _ q mS mC _ hmem
    rw [hel] at helig
    cases helig

/-- Profile set used by the C2 witness: a categorical column with 12
distinct values and a numeric measure. -/
def witnessProfiles : List ColumnProfile :=
  [⟨"region", "object", InferredType.categorical, 12, 0, 0, 0, 0, 0⟩,
   ⟨"sales", "float64", InferredType.numeric, 90, 0, 10, 2, 0, 0⟩]

/-- Role assignment used by the C2 witness. -/
def witnessRoles : RoleAssignment := ⟨some "sales", none, ["region"], [], []⟩

/-- Witness for C2: the donut candidate over the 12-valued categorical
column is generated, is of donut type, and is marked ineligible with a
rejection reason. -/
theorem donut_over_eight_ineligible_witness :
    (mkDonut witnessProfiles witnessRoles "region" "sales").eligible = false ∧
    (mkDonut witnessProfiles witnessRoles "region" "sales").rejectionReason.isSome = true :=
  ((donut_over_eight_ineligible witnessProfiles witnessRoles
      (mkDonut witnessProfiles witnessRoles "region" "sales") (by decide) (by decide)).1
    "region" ⟨"region", "object", InferredType.categorical, 12, 0, 0, 0, 0, 0⟩
    (by decide) (by decide)).1 (by decide)

/-- C1: for every candidate set, data-quality profile, caller-supplied
threshold `min_score` and cap `max_charts`, the Chart Scorer &
Selector's generated list has at most `max_charts` entries, every
generated entry scores at least `min_score`, eligible candidates scoring
below `min_score` are skipped with reason "below quality threshold", and
above-threshold eligible candidates beyond the cap are skipped with
reason "exceeded chart cap". -/
theorem selector_threshold_and_cap :
    ∀ (cands : List ChartCandidate) (q : DataQualityProfile) (minScore : ℚ)
      (maxCharts : Nat),
      (selectCharts cands q minScore maxCharts).1.length ≤ maxCharts ∧
      (∀ e ∈ (selectCharts cands q minScore maxCharts).1, minScore ≤ e.2) ∧
      (∀ c ∈ cands, c.eligible = true → scoreOf q c < minScore →
        SkipEntry.mk c (some (scoreOf q c)) "below quality threshold" ∈
          (selectCharts cands q minScore maxCharts).2) ∧
      (∀ c ∈ cands, c.eligible = true → minScore ≤ scoreOf q c →
        (c, scoreOf q c) ∈ (selectCharts cands q minScore maxCharts).1 ∨
        SkipEntry.mk c (some (scoreOf q c)) "exceeded chart cap" ∈
          (selectCharts cands q minScore maxCharts).2) := by
  intro cands q minScore maxCharts
  refine ⟨?_, ?_, ?_, ?_⟩
  · simp only [selectCharts]
    exact List.length_take_le maxCharts _
  · intro e he
    simp only [selectCharts] at he
    have h1 := List.mem_of_mem_take he
    rw [mem_sortByRel, List.mem_filter] at h1
    exact of_decide_eq_true h1.2
  · intro c hc hel hlt
    simp only [selectCharts, List.mem_append]
    refine Or.inl (Or.inr ?_)
    rw [List.mem_map]
    refine ⟨(c, scoreOf q c), ?_, rfl⟩
    rw [List.mem_filter]
    exact ⟨List.mem_map_of_mem _ (List.mem_filter.mpr ⟨hc, hel⟩), decide_eq_true hlt⟩
  · intro c hc hel hge
    have habove : (c, scoreOf q c) ∈ sortByRel candBefore
        (((cands.filter (fun c => c.eligible)).map (fun c => (c, scoreOf q c))).filter
          (fun e => decide (minScore ≤ e.2))) := by
      rw [mem_sortByRel, List.mem_filter]
      exact ⟨List.mem_map_of_mem _ (List.mem_filter.mpr ⟨hc, hel⟩), decide_eq_true hge⟩
    rw [← List.take_append_drop maxCharts
      (sortByRel candBefore _), List.mem_append] at habove
    simp only [selectCharts, List.mem_append]
    rcases habove with h | h
    · exact Or.inl h
    · exact Or.inr (Or.inr (List.mem_map.mpr ⟨(c, scoreOf q c), h, rfl⟩))

/-- An eligible line candidate used by the C1 witness. -/
def wCand1 : ChartCandidate := ⟨"line_d", ChartType.line, some "d", some "m", none, true, none⟩

/-- An eligible horizontal-bar candidate used by the C1 witness. -/
def wCand2 : ChartCandidate :=
  ⟨"bar_c", ChartType.barHorizontal, some "c", some "m", none, true, none⟩

/-- A concrete data-quality profile (summary score 90) used by the C1
witness. -/
def wQuality : DataQualityProfile := ⟨100, 100, 100, 100, 100, ⟨90, "A"⟩⟩

/-- Witness for C1: with threshold 80 and cap 1, the bar candidate
(score 76.5) is skipped with reason "below quality threshold" and the
line candidate (score 81) is either generated or skipped with reason
"exceeded chart cap". -/
theorem selector_threshold_and_cap_witness :
    SkipEntry.mk wCand2 (some (scoreOf wQuality wCand2)) "below quality threshold" ∈
      (selectCharts [wCand1, wCand2] wQuality 80 1).2 ∧
    ((wCand1, scoreOf wQuality wCand1) ∈ (selectCharts [wCand1, wCand2] wQuality 80 1).1 ∨
      SkipEntry.mk wCand1 (some (scoreOf wQuality wCand1)) "exceeded chart cap" ∈
        (selectCharts [wCand1, wCand2] wQuality 80 1).2) :=
  ⟨(selector_threshold_and_cap [wCand1, wCand2] wQuality 80 1).2.2.1 wCand2
      (List.mem_cons_of_mem _ (List.mem_cons_self _ _)) rfl
      (by norm_num [scoreOf, wQuality, wCand2, baseScore]),
   (selector_threshold_and_cap [wCand1, wCand2] wQuality 80 1).2.2.2 wCand1
      (List.mem_cons_self _ _) rfl
      (by norm_num [scoreOf, wQuality, wCand1, baseScore])⟩

/-- The final manifest (spec section 3): ordered generated entries,
skipped entries with reasons, selection metadata and the quality
summary. -/
structure Manifest where
  generated : List (ChartCandidate × ℚ)
  skipped : List SkipEntry
  threshold : ℚ
  cap : Nat
  planSource : PlanSource
  qualityScore : ℚ
  qualityGrade : String
deriving DecidableEq, Repr

/-- Modelled from the spec: the planning pipeline over its inbound
interface (spec sections 6 and 7; the scripts are not under `src/`): a
column-profile set plus row count, the suggester outcome, and the
caller-supplied `min_score` and `max_charts`.  No columns at all or
zero rows is the fatal "insufficient data" condition and no Manifest is
produced; otherwise quality scoring, role assignment, candidate
generation, selection and manifest assembly run to completion. -/
def runPipeline (ps : List ColumnProfile) (rowCount : Nat) (outcome : SuggesterOutcome)
    (minScore : ℚ) (maxCharts : Nat) : Except String Manifest :=
  if rowCount = 0 ∨ ps = [] then Except.error "insufficient data"
  else
    let q := dataQuality ps rowCount
    let rs := assignRoles ps outcome
    let cands := generateCandidates ps rs.1
    let sel := selectCharts cands q minScore maxCharts
    Except.ok
      { generated := sel.1, skipped := sel.2, threshold := minScore, cap := maxCharts,
        planSource := rs.2, qualityScore := q.summary.score,
        qualityGrade := q.summary.grade }

/-- C6: for every analysis input with zero rows or no columns at all,
the pipeline fails with the explicit "insufficient data" fatal condition
and no Manifest is produced. -/
theorem insufficient_data_fatal :
    ∀ (ps : List ColumnProfile) (rc : Nat) (o : SuggesterOutcome) (mS : ℚ) (mC : Nat),
      rc = 0 ∨ ps = [] →
      runPipeline ps rc o mS mC = Except.error "insufficient data" := by
  intro ps rc o mS mC h
  unfold runPipeline
  rw [if_pos h]

/-- Witness for C6: the pipeline on zero rows (and on an empty column
set) returns the "insufficient data" error. -/
theorem insufficient_data_fatal_witness :
    runPipeline sampleProfiles 0 (.failure "timeout") 55 6 =
      Except.error "insufficient data" ∧
    runPipeline [] 340 (.failure "timeout") 55 6 = Except.error "insufficient data" :=
  ⟨insufficient_data_fatal sampleProfiles 0 (.failure "timeout") 55 6 (Or.inl rfl),
   insufficient_data_fatal [] 340 (.failure "timeout") 55 6 (Or.inr rfl)⟩

/-- C7: whenever the external suggester call errors, times out, or
returns structurally invalid data, the Role Assigner returns the
heuristic fallback assignment with `plan_source = "fallback"` and no
error propagates to the caller: on any non-fatal input the pipeline
still completes with a Manifest, and `plan_source` is always one of
"llm" or "fallback". -/
theorem suggester_failure_degrades_to_fallback :
    ∀ (ps : List ColumnProfile) (rc : Nat) (o : SuggesterOutcome) (mS : ℚ) (mC : Nat),
      (suggesterRejected ps o = true →
        assignRoles ps o = (heuristicRoles ps, PlanSource.fallback)) ∧
      ((assignRoles ps o).2 = PlanSource.llm ∨ (assignRoles ps o).2 = PlanSource.fallback) ∧
      (rc ≠ 0 → ps ≠ [] →
        ∃ m, runPipeline ps rc o mS mC = Except.ok m ∧
          (suggesterRejected ps o = true → m.planSource = PlanSource.fallback) ∧
          (m.planSource = PlanSource.llm ∨ m.planSource = PlanSource.fallback)) := by
  intro ps rc o mS mC
  have hfall : suggesterRejected ps o = true →
      assignRoles ps o = (heuristicRoles ps, PlanSource.fallback) := by
    intro hrej
    cases o with
    | failure msg => rfl
    | success r =>
      have hval : validRoles ps r = false := by
        simpa [suggesterRejected] using hrej
      simp [assignRoles, hval]
  have hsrc : (assignRoles ps o).2 = PlanSource.llm ∨
      (assignRoles ps o).2 = PlanSource.fallback := by
    cases o with
    | failure msg => exact Or.inr rfl
    | success r =>
      by_cases hval : validRoles ps r = true
      · exact Or.inl (by simp [assignRoles, hval])
      · exact Or.inr (by simp [assignRoles, hval])
  refine ⟨hfall, hsrc, ?_⟩
  intro hrc hps
  have hcond : ¬(rc = 0 ∨ ps = []) := by tauto
  unfold runPipeline
  rw [if_neg hcond]
  refine ⟨_, rfl, ?_, ?_⟩
  · intro hrej
    show (assignRoles ps o).2 = PlanSource.fallback
    rw [hfall hrej]
  · exact hsrc

/-- Witness for C7: on a concrete profile set with a failing suggester
call, the role assigner returns the fallback and the pipeline completes
with a fallback-tagged Manifest. -/
theorem suggester_failure_degrades_to_fallback_witness :
    assignRoles sampleProfiles (.failure "timeout") =
      (heuristicRoles sampleProfiles, PlanSource.fallback) ∧
    (∃ m, runPipeline sampleProfiles 340 (.failure "timeout") 55 6 = Except.ok m ∧
      (suggesterRejected sampleProfiles (.failure "timeout") = true →
        m.planSource = PlanSource.fallback) ∧
      (m.planSource = PlanSource.llm ∨ m.planSource = PlanSource.fallback)) :=
  ⟨(suggester_failure_degrades_to_fallback sampleProfiles 340 (.failure "timeout") 55 6).1
      rfl,
   (suggester_failure_degrades_to_fallback sampleProfiles 340 (.failure "timeout") 55 6).2.2
      (by decide) (by simp [sampleProfiles])⟩
